import Mathlib

/-!
Shallow embedding of the Bedrock knowledge-base cleanup scripts
(`delete_bedrock_kbs.py`, `delete_bedrock_kbs_v2.py`) and the polling loops of
`kb_test.py`.

The scripts are sequences of AWS API calls.  We embed each function as a pure
Lean function that, besides its Python return value, also produces the list of
API calls it issues, in order.  The behaviour of the remote service is a
parameter: each call site that can fail takes an outcome stream (one outcome
per attempt, mirroring the `except` clauses the Python code actually has).
-/

/-- The AWS `bedrock-agent` API calls issued by the cleaner scripts.
`listKnowledgeBases`/`listDataSources`/`getDataSource` are read-only;
`updateDataSource` (the `dataDeletionPolicy='RETAIN'` update),
`deleteDataSource` and `deleteKnowledgeBase` mutate remote state. -/
inductive ApiCall where
  | listKnowledgeBases : ApiCall
  | listDataSources (kbId : String) : ApiCall
  | getDataSource (kbId dsId : String) : ApiCall
  | updateDataSource (kbId dsId : String) : ApiCall
  | deleteDataSource (kbId dsId : String) : ApiCall
  | deleteKnowledgeBase (kbId : String) : ApiCall
deriving DecidableEq, Repr

/-- A call is mutating iff it is a create/update/delete call.  The cleaner
scripts issue no create calls, so these are the update and delete calls. -/
def ApiCall.isMutating : ApiCall → Bool
  | .updateDataSource _ _ => true
  | .deleteDataSource _ _ => true
  | .deleteKnowledgeBase _ => true
  | _ => false

/-- Recognise a data-source-deletion call. -/
def ApiCall.isDSDelete : ApiCall → Bool
  | .deleteDataSource _ _ => true
  | _ => false

/-- Recognise a knowledge-base-deletion call. -/
def ApiCall.isKBDelete : ApiCall → Bool
  | .deleteKnowledgeBase _ => true
  | _ => false

/-- Recognise a deletion-policy-update call (`update_data_source` with
`dataDeletionPolicy='RETAIN'`). -/
def ApiCall.isDSPolicyUpdate : ApiCall → Bool
  | .updateDataSource _ _ => true
  | _ => false

/-- Model of Python's `str.lower()` (the messages involved are ASCII). -/
def strLower (s : String) : String := ⟨s.data.map Char.toLower⟩

/-- `listContainsSub needle hay`: does `hay` contain `needle` as a contiguous
sublist?  Models Python's `needle in hay` on strings. -/
def listContainsSub (needle : List Char) : List Char → Bool
  | [] => needle.isEmpty
  | c :: cs => needle.isPrefixOf (c :: cs) || listContainsSub needle cs

/-- Model of Python's substring test `needle in hay`. -/
def containsSub (needle hay : String) : Bool := listContainsSub needle.data hay.data

/-- The check `'vector store' in error_message.lower()` from
`delete_bedrock_kbs.py` line 117 and `delete_bedrock_kbs_v2.py` line 193. -/
def hasVectorStore (msg : String) : Bool := containsSub "vector store" (strLower msg)

/-- Outcome of one attempt of an API call in the v1 script: the call either
succeeds or raises `ClientError` with the given error message.  (v1 installs
no timeout handler; any other exception would propagate uncaught, which is
modelled at the `main` level.) -/
inductive V1Outcome where
  | success : V1Outcome
  | clientError (msg : String) : V1Outcome
deriving DecidableEq, Repr

namespace BedrockKBCleaner

/-- `delete_bedrock_kbs.py` lines 74-99, `update_data_source_deletion_policy`:
issues `get_data_source`; if that raises `ClientError` (`getOk = false`) it
returns `False`; otherwise issues `update_data_source` with
`dataDeletionPolicy='RETAIN'` and returns `False` if it raises
(`updOk = false`), `True` otherwise. -/
def update_data_source_deletion_policy (kbId dsId : String) (getOk updOk : Bool) :
    Bool × List ApiCall :=
  if getOk then
    (updOk, [ApiCall.getDataSource kbId dsId, ApiCall.updateDataSource kbId dsId])
  else
    (false, [ApiCall.getDataSource kbId dsId])

/-- The `for attempt in range(max_retries)` loop of
`delete_bedrock_kbs.py` lines 101-126 (`delete_data_source`).
`r` is the number of loop iterations still available, so the current Python
loop index is `attempt = max_retries - r`; the top-level entry is
`r = max_retries`.  `beh attempt` is the outcome of the `delete_data_source`
API call at that attempt, and `polBeh attempt` the `(getOk, updOk)` outcomes
inside the policy update triggered at that attempt (if any). -/
def delete_data_source_go (kbId dsId : String) (beh : Nat → V1Outcome)
    (polBeh : Nat → Bool × Bool) (max_retries : Nat) : Nat → Bool × List ApiCall
  | 0 => (false, [])
  | r + 1 =>
    let attempt := max_retries - (r + 1)
    match beh attempt with
    | .success => (true, [ApiCall.deleteDataSource kbId dsId])
    | .clientError msg =>
      if hasVectorStore msg = true ∧ attempt < max_retries - 1 then
        let pol := update_data_source_deletion_policy kbId dsId
          (polBeh attempt).1 (polBeh attempt).2
        let rest := delete_data_source_go kbId dsId beh polBeh max_retries r
        (rest.1, ApiCall.deleteDataSource kbId dsId :: pol.2 ++ rest.2)
      else
        (false, [ApiCall.deleteDataSource kbId dsId])

/-- `delete_bedrock_kbs.py` lines 101-126, `delete_data_source` (the source
calls it with the default `max_retries = 3`). -/
def delete_data_source (kbId dsId : String) (beh : Nat → V1Outcome)
    (polBeh : Nat → Bool × Bool) (max_retries : Nat) : Bool × List ApiCall :=
  delete_data_source_go kbId dsId beh polBeh max_retries max_retries

/-- One enumerated data source of a knowledge base, together with the
service's behaviour towards it: `beh i` is the outcome of the `i`-th
`delete_data_source` call for it, `polBeh i` the `(getOk, updOk)` outcomes
inside the policy update triggered at attempt `i` (if any). -/
structure DSInfo where
  dsId : String
  dsName : String
  beh : Nat → V1Outcome
  polBeh : Nat → Bool × Bool

/-- One enumerated knowledge base: its id/name, the data sources that
`list_data_sources` enumerates for it (a `ClientError` there is caught at
lines 70-72 and yields `[]`), and `kbBeh i`, the outcome of the `i`-th
`delete_knowledge_base` call for it. -/
structure KBInfo where
  kbId : String
  kbName : String
  dataSources : List DSInfo
  kbBeh : Nat → V1Outcome

/-- The `for attempt in range(max_retries)` loop of
`delete_bedrock_kbs.py` lines 157-176: each attempt issues one
`delete_knowledge_base` call; success returns `True`; a `ClientError` retries
while `attempt < max_retries - 1` and otherwise returns `False`.
As in `delete_data_source_go`, `r` is the number of remaining iterations. -/
def delete_knowledge_base_go (kbId : String) (beh : Nat → V1Outcome)
    (max_retries : Nat) : Nat → Bool × List ApiCall
  | 0 => (false, [])
  | r + 1 =>
    let attempt := max_retries - (r + 1)
    match beh attempt with
    | .success => (true, [ApiCall.deleteKnowledgeBase kbId])
    | .clientError _ =>
      if attempt < max_retries - 1 then
        let rest := delete_knowledge_base_go kbId beh max_retries r
        (rest.1, ApiCall.deleteKnowledgeBase kbId :: rest.2)
      else
        (false, [ApiCall.deleteKnowledgeBase kbId])

/-- `delete_bedrock_kbs.py` lines 128-176, `delete_knowledge_base`:
on `dry_run` it returns `True` immediately (before any API call); otherwise it
lists the data sources, deletes each of them with `delete_data_source`
(ignoring per-data-source failures, line 148-149), waits, and then deletes the
knowledge base itself with up to `max_retries` attempts. -/
def delete_knowledge_base (dry_run : Bool) (kb : KBInfo) (max_retries : Nat) :
    Bool × List ApiCall :=
  if dry_run then (true, [])
  else
    let dsTraces := kb.dataSources.map fun ds =>
      (delete_data_source kb.kbId ds.dsId ds.beh ds.polBeh 3).2
    let kbRes := delete_knowledge_base_go kb.kbId kb.kbBeh max_retries max_retries
    (kbRes.1, ApiCall.listDataSources kb.kbId :: dsTraces.flatten ++ kbRes.2)

/-- `delete_bedrock_kbs.py` lines 178-224, `delete_all_knowledge_bases`.
`listOutcome = none` models a `ClientError` in `list_knowledge_bases`
(lines 55-57), which is caught and yields `[]`.  The result's first component
is `some (success_count, failure_count)` when the run reaches the
`Deletion Summary` at lines 216-218, and `none` when the function returns
early (nothing enumerated, or confirmation refused); the second component is
the list of API calls issued. -/
def delete_all_knowledge_bases (dry_run confirm : Bool) (userResponse : String)
    (listOutcome : Option (List KBInfo)) : Option (Nat × Nat) × List ApiCall :=
  let kbs := listOutcome.getD []
  if kbs.isEmpty then (none, [ApiCall.listKnowledgeBases])
  else if ¬dry_run ∧ ¬confirm ∧ userResponse ≠ "DELETE" then
    (none, [ApiCall.listKnowledgeBases])
  else
    let results := kbs.map fun kb => delete_knowledge_base dry_run kb 3
    (some (results.countP (·.1), results.countP fun res => !res.1),
      ApiCall.listKnowledgeBases :: (results.map (·.2)).flatten)

end BedrockKBCleaner

/-- Outcome of one attempt of an API call in the v2 script: besides success
and `ClientError`, the `TimeoutHandler` alarm may fire during the call,
raising `TimeoutError` (the call had been issued when the alarm fired). -/
inductive V2Outcome where
  | success : V2Outcome
  | timeoutErr : V2Outcome
  | clientError (msg : String) : V2Outcome
deriving DecidableEq, Repr

namespace BedrockKBCleanerV2

/-- `delete_bedrock_kbs_v2.py` lines 134-165,
`update_data_source_deletion_policy_with_timeout`: same call sequence as the
v1 version; a `TimeoutError` or `ClientError` during `get_data_source`
(`getOk = false`) leaves only that call issued, and one during
`update_data_source` (`updOk = false`) leaves both issued; both make the
function return `False`. -/
def update_data_source_deletion_policy_with_timeout (kbId dsId : String)
    (getOk updOk : Bool) : Bool × List ApiCall :=
  if getOk then
    (updOk, [ApiCall.getDataSource kbId dsId, ApiCall.updateDataSource kbId dsId])
  else
    (false, [ApiCall.getDataSource kbId dsId])

/-- The retry loop of `delete_bedrock_kbs_v2.py` lines 167-202
(`delete_data_source_with_timeout`).  Identical to the v1 loop except that a
`TimeoutError` retries (without any policy update) while
`attempt < max_retries - 1` and otherwise fails. -/
def delete_data_source_with_timeout_go (kbId dsId : String) (beh : Nat → V2Outcome)
    (polBeh : Nat → Bool × Bool) (max_retries : Nat) : Nat → Bool × List ApiCall
  | 0 => (false, [])
  | r + 1 =>
    let attempt := max_retries - (r + 1)
    match beh attempt with
    | .success => (true, [ApiCall.deleteDataSource kbId dsId])
    | .timeoutErr =>
      if attempt < max_retries - 1 then
        let rest := delete_data_source_with_timeout_go kbId dsId beh polBeh max_retries r
        (rest.1, ApiCall.deleteDataSource kbId dsId :: rest.2)
      else
        (false, [ApiCall.deleteDataSource kbId dsId])
    | .clientError msg =>
      if hasVectorStore msg = true ∧ attempt < max_retries - 1 then
        let pol := update_data_source_deletion_policy_with_timeout kbId dsId
          (polBeh attempt).1 (polBeh attempt).2
        let rest := delete_data_source_with_timeout_go kbId dsId beh polBeh max_retries r
        (rest.1, ApiCall.deleteDataSource kbId dsId :: pol.2 ++ rest.2)
      else
        (false, [ApiCall.deleteDataSource kbId dsId])

/-- `delete_bedrock_kbs_v2.py` lines 167-202, `delete_data_source_with_timeout`
(the source calls it with the default `max_retries = 3`). -/
def delete_data_source_with_timeout (kbId dsId : String) (beh : Nat → V2Outcome)
    (polBeh : Nat → Bool × Bool) (max_retries : Nat) : Bool × List ApiCall :=
  delete_data_source_with_timeout_go kbId dsId beh polBeh max_retries max_retries

/-- One enumerated data source in the v2 script, with the service's behaviour
towards it (as in the v1 `DSInfo`, with v2 outcomes). -/
structure DSInfoV2 where
  dsId : String
  dsName : String
  beh : Nat → V2Outcome
  polBeh : Nat → Bool × Bool

/-- One enumerated knowledge base in the v2 script (as in the v1 `KBInfo`;
a `TimeoutError` or `ClientError` in `list_data_sources_with_timeout` is
caught at lines 127-132 and yields `[]`). -/
structure KBInfoV2 where
  kbId : String
  kbName : String
  dataSources : List DSInfoV2
  kbBeh : Nat → V2Outcome

/-- The retry loop of `delete_bedrock_kbs_v2.py` lines 233-263: each attempt
issues one `delete_knowledge_base` call; success returns `True`; both
`TimeoutError` and `ClientError` retry while `attempt < max_retries - 1` and
otherwise return `False`. -/
def delete_knowledge_base_with_timeout_go (kbId : String) (beh : Nat → V2Outcome)
    (max_retries : Nat) : Nat → Bool × List ApiCall
  | 0 => (false, [])
  | r + 1 =>
    let attempt := max_retries - (r + 1)
    match beh attempt with
    | .success => (true, [ApiCall.deleteKnowledgeBase kbId])
    | _ =>
      if attempt < max_retries - 1 then
        let rest := delete_knowledge_base_with_timeout_go kbId beh max_retries r
        (rest.1, ApiCall.deleteKnowledgeBase kbId :: rest.2)
      else
        (false, [ApiCall.deleteKnowledgeBase kbId])

/-- `delete_bedrock_kbs_v2.py` lines 204-263, `delete_knowledge_base_with_timeout`:
on `dry_run` it returns `True` immediately (before any API call); otherwise it
lists the data sources, deletes each of them (ignoring per-data-source
failures, lines 224-225), waits, and then deletes the knowledge base itself
with up to `max_retries` attempts. -/
def delete_knowledge_base_with_timeout (dry_run : Bool) (kb : KBInfoV2)
    (max_retries : Nat) : Bool × List ApiCall :=
  if dry_run then (true, [])
  else
    let dsTraces := kb.dataSources.map fun ds =>
      (delete_data_source_with_timeout kb.kbId ds.dsId ds.beh ds.polBeh 3).2
    let kbRes := delete_knowledge_base_with_timeout_go kb.kbId kb.kbBeh max_retries max_retries
    (kbRes.1, ApiCall.listDataSources kb.kbId :: dsTraces.flatten ++ kbRes.2)

end BedrockKBCleanerV2

/-- The batches produced by the loop
`for batch_start in range(0, len(knowledge_bases), batch_size)` together with
`batch = knowledge_bases[batch_start:batch_start + batch_size]`
(`delete_bedrock_kbs_v2.py` lines 290-292): the slice
`l[s : s+B]` is `(l.drop s).take B`, so for a nonempty remainder `x :: xs`
each batch is `x :: xs.take (B-1)` and the loop continues on
`xs.drop (B-1)`.  (For `batch_size = 0` Python's `range` raises `ValueError`;
the callers below only use `0 < B`.) -/
def chunkBatches (B : Nat) : List α → List (List α)
  | [] => []
  | x :: xs => (x :: xs.take (B - 1)) :: chunkBatches B (xs.drop (B - 1))
termination_by l => l.length
decreasing_by
  simp only [List.length_drop, List.length_cons]
  omega

/-- Observable events of the v2 batch loop: processing one knowledge base,
the 2-second delay between deletions inside a batch (line 312-313), and the
10-second delay between batches (lines 316-318). -/
inductive V2Event where
  | process (kbId : String) : V2Event
  | intraDelay : V2Event
  | interDelay : V2Event
deriving DecidableEq, Repr

namespace BedrockKBCleanerV2

/-- The events of one batch (`delete_bedrock_kbs_v2.py` lines 296-313): each
knowledge base of the batch is processed, with the 2-second intra-batch delay
after every one except the last (`if i < len(batch) - 1`). -/
def batchTrace (b : List String) : List V2Event :=
  List.intersperse V2Event.intraDelay (b.map V2Event.process)

/-- The batch loop of `delete_bedrock_kbs_v2.py` lines 290-318 over the ids of
the enumerated knowledge bases: the batch `x :: xs.take (B-1)` is processed,
and the 10-second inter-batch delay is issued only when
`batch_end < len(knowledge_bases)`, i.e. only when a further batch follows. -/
def run_batches (B : Nat) : List String → List V2Event
  | [] => []
  | x :: xs =>
    let rest := xs.drop (B - 1)
    batchTrace (x :: xs.take (B - 1)) ++
      (if rest.isEmpty then [] else V2Event.interDelay :: run_batches B rest)
termination_by l => l.length
decreasing_by
  simp only [List.length_drop, List.length_cons]
  omega

/-- `delete_bedrock_kbs_v2.py` lines 265-330, `delete_all_knowledge_bases`.
`listOutcome = none` models a failure inside `list_knowledge_bases`
(`TimeoutError` or `ClientError`, lines 105-110), which is caught and yields
`[]`.  The first component is `some (success_count, failure_count)` when the
run reaches the `Final Deletion Summary` at lines 320-323 and `none` when the
function returns early (nothing enumerated, confirmation refused) or crashes
before the summary (`batch_size = 0` makes `range(0, n, 0)` raise
`ValueError`, which nothing catches).  Each enumerated knowledge base is
processed exactly once across the batches, in order. -/
def delete_all_knowledge_bases (dry_run confirm : Bool) (userResponse : String)
    (listOutcome : Option (List KBInfoV2)) (batch_size : Nat) :
    Option (Nat × Nat) × List ApiCall :=
  let kbs := listOutcome.getD []
  if kbs.isEmpty then (none, [ApiCall.listKnowledgeBases])
  else if ¬dry_run ∧ ¬confirm ∧ userResponse ≠ "DELETE" then
    (none, [ApiCall.listKnowledgeBases])
  else if batch_size = 0 then (none, [ApiCall.listKnowledgeBases])
  else
    let results := (chunkBatches batch_size kbs).flatten.map fun kb =>
      delete_knowledge_base_with_timeout dry_run kb 3
    (some (results.countP (·.1), results.countP fun res => !res.1),
      ApiCall.listKnowledgeBases :: (results.map (·.2)).flatten)

end BedrockKBCleanerV2

/-! ### Startup and process exit codes

`BedrockKBCleaner.__init__` (`delete_bedrock_kbs.py` lines 30-35) only
catches `NoCredentialsError` from `boto3.client` and calls `sys.exit(1)`.
`BedrockKBCleanerV2.__init__` (`delete_bedrock_kbs_v2.py` lines 56-67)
additionally issues a test `list_knowledge_bases(maxResults=1)` call and also
calls `sys.exit(1)` on `ClientError`.

`main` of v2 (lines 354-368) wraps the run in
`except KeyboardInterrupt: sys.exit(1)` and `except Exception: sys.exit(1)`;
`main` of v1 (lines 226-252) has no handler at all, so an exception escaping
the run is handled by the interpreter: CPython exits with status 1 for an
uncaught exception, and for an uncaught `KeyboardInterrupt` it terminates on
the original `SIGINT`, which the OS reports as status 130, not 1. -/

/-- What happens at v1 startup: `boto3.client` either succeeds or raises
`NoCredentialsError` (the only exception `__init__` handles; the constructor
performs no API call, so no `ClientError` can arise there). -/
inductive V1Startup where
  | ok : V1Startup
  | noCredentials : V1Startup
deriving DecidableEq, Repr

/-- What happens at v2 startup: the client construction plus the test
`list_knowledge_bases(maxResults=1)` call either succeed, or raise
`NoCredentialsError`, or raise `ClientError` (bad region/permissions). -/
inductive V2Startup where
  | ok : V2Startup
  | noCredentials : V2Startup
  | testCallClientError (msg : String) : V2Startup
deriving DecidableEq, Repr

/-- What the body of a run does after a successful startup: it either runs to
completion, or a `KeyboardInterrupt` arrives, or an unexpected exception
(anything the per-call handlers do not catch) is raised. -/
inductive RunEvent where
  | completes : RunEvent
  | interrupted : RunEvent
  | unexpectedError : RunEvent
deriving DecidableEq, Repr

namespace BedrockKBCleaner

/-- Process exit status of a v1 run (`delete_bedrock_kbs.py` lines 18-35 and
226-252).  `__init__` exits with code 1 on missing credentials; otherwise
`main` runs `delete_all_knowledge_bases` with no exception handler, so the
interpreter turns an uncaught exception into exit status 1 and an uncaught
`KeyboardInterrupt` into termination by `SIGINT`, reported as status 130. -/
def main_exit (s : V1Startup) (ev : RunEvent) : Nat :=
  match s with
  | .noCredentials => 1
  | .ok =>
    match ev with
    | .completes => 0
    | .interrupted => 130
    | .unexpectedError => 1

end BedrockKBCleaner

namespace BedrockKBCleanerV2

/-- `delete_bedrock_kbs_v2.py` lines 56-67, `__init__`: result is
`some 1` when the process exits fatally (`sys.exit(1)`), together with the
API calls issued; the startup test call is the only call, and the
authentication errors surface on it. -/
def init (s : V2Startup) : Option Nat × List ApiCall :=
  match s with
  | .ok => (none, [ApiCall.listKnowledgeBases])
  | .noCredentials => (some 1, [ApiCall.listKnowledgeBases])
  | .testCallClientError _ => (some 1, [ApiCall.listKnowledgeBases])

/-- Process exit status of a v2 run (`delete_bedrock_kbs_v2.py` lines
332-368): a fatal startup exits with the code from `init`; afterwards the
`try`/`except` in `main` maps completion to 0 and both `KeyboardInterrupt`
and any other `Exception` to `sys.exit(1)`. -/
def main_exit (s : V2Startup) (ev : RunEvent) : Nat :=
  match (init s).1 with
  | some code => code
  | none =>
    match ev with
    | .completes => 0
    | .interrupted => 1
    | .unexpectedError => 1

end BedrockKBCleanerV2

/-! ### Polling loops of `kb_test.py`

The loops repeatedly call a "get status" API; we model the sequence of
statuses the service returns as a stream `status : Nat → String`
(`status i` is the answer to the `i`-th poll).  A loop that the source bounds
by a counter is embedded with that counter; the unbounded `while` loops are
embedded with an explicit amount of fuel, so that running forever is the
statement that the loop reaches no exit for any finite fuel. -/

/-- The `while True` loop of `kb_test.py` lines 228-239 (`wait_for_kb_active`),
which exits only on status `ACTIVE` (break, `some true`) or `FAILED` (raise,
`some false`) and otherwise sleeps and polls again; it has no counter or
timeout.  `none` means the loop is still running after `fuel` polls. -/
def wait_for_kb_active_go (status : Nat → String) (i : Nat) : Nat → Option Bool
  | 0 => none
  | fuel + 1 =>
    if status i = "ACTIVE" then some true
    else if status i = "FAILED" then some false
    else wait_for_kb_active_go status (i + 1) fuel

/-- `kb_test.py` lines 228-239, `wait_for_kb_active`, run for at most `fuel`
polls. -/
def wait_for_kb_active (status : Nat → String) (fuel : Nat) : Option Bool :=
  wait_for_kb_active_go status 0 fuel

/-- The `while status != "ENABLED"` loop of `kb_test.py` lines 345-358
(`enable_code_interpreter`), which polls `get_agent_action_group` until the
state reads `ENABLED`; it has no counter, timeout or failure escape.
`none` means the loop is still running after `fuel` polls. -/
def action_group_wait_go (status : Nat → String) (i : Nat) : Nat → Option Unit
  | 0 => none
  | fuel + 1 =>
    if status i = "ENABLED" then some ()
    else action_group_wait_go status (i + 1) fuel

/-- The action-group polling loop of `enable_code_interpreter`, run for at
most `fuel` polls. -/
def action_group_wait (status : Nat → String) (fuel : Nat) : Option Unit :=
  action_group_wait_go status 0 fuel

/-- `wait_for_kb_active` reaches no exit within any finite number of polls on
this status stream. -/
def kbActivePollsForever (status : Nat → String) : Prop :=
  ∀ fuel, wait_for_kb_active status fuel = none

/-- The action-group loop reaches no exit within any finite number of polls
on this status stream. -/
def actionGroupPollsForever (status : Nat → String) : Prop :=
  ∀ fuel, action_group_wait status fuel = none

/-- Result of `kb_test.py` lines 645-665, `wait_for_agent_status`. -/
inductive AgentWait where
  | reached : AgentWait
  | terminalFailure (s : String) : AgentWait
  | timedOut : AgentWait
deriving DecidableEq, Repr

/-- The `for attempt in range(max_retries)` loop of `kb_test.py` lines
645-665: each iteration polls `get_agent` once; the loop returns on the
expected status, raises on a terminal status (`FAILED`/`DELETING`/`DELETED`),
and raises `TimeoutError` when the counter expires.  The second component
counts the polls issued. -/
def wait_for_agent_status_go (status : Nat → String) (expected : String) (i : Nat) :
    Nat → AgentWait × Nat
  | 0 => (.timedOut, 0)
  | fuel + 1 =>
    if status i = expected then (.reached, 1)
    else if status i = "FAILED" ∨ status i = "DELETING" ∨ status i = "DELETED" then
      (.terminalFailure (status i), 1)
    else
      let rest := wait_for_agent_status_go status expected (i + 1) fuel
      (rest.1, rest.2 + 1)

/-- `kb_test.py` lines 645-665, `wait_for_agent_status` with its retry
counter `max_retries` (default 60). -/
def wait_for_agent_status (status : Nat → String) (expected : String)
    (max_retries : Nat) : AgentWait × Nat :=
  wait_for_agent_status_go status expected 0 max_retries



/-! ### Helper lemmas -/

theorem countP_add_countP_not (p : α → Bool) (l : List α) :
    l.countP p + l.countP (fun a => !p a) = l.length := by
  induction l with
  | nil => rfl
  | cons x t ih =>
    cases hx : p x <;> simp [List.countP_cons, hx] <;> omega

theorem flatten_map_nil (l : List α) :
    (l.map fun _ => ([] : List β)).flatten = [] := by
  induction l with
  | nil => rfl
  | cons x t ih => simp [ih]

theorem flatten_map_singleton (f : α → β) (l : List α) :
    (l.map fun x => [f x]).flatten = l.map f := by
  induction l with
  | nil => rfl
  | cons x t ih => simpa using ih

theorem chunkBatches_flatten (B : Nat) (l : List α) :
    (chunkBatches B l).flatten = l := by
  induction l using chunkBatches.induct B with
  | case1 => simp [chunkBatches]
  | case2 x xs ih =>
    rw [chunkBatches]
    simp [ih, List.take_append_drop]

theorem chunkBatches_length (B : Nat) (hB : 0 < B) (l : List α) :
    (chunkBatches B l).length = (l.length + B - 1) / B := by
  induction l using chunkBatches.induct B with
  | case1 =>
    simp [chunkBatches, Nat.div_eq_of_lt (show B - 1 < B by omega)]
  | case2 x xs ih =>
    rw [chunkBatches]
    simp only [List.length_cons, List.length_drop] at ih ⊢
    rw [ih]
    rcases le_or_lt (B - 1) xs.length with hle | hlt
    · have h1 : xs.length - (B - 1) + B - 1 = xs.length := by omega
      have h2 : xs.length + 1 + B - 1 = xs.length + B := by omega
      rw [h1, h2, Nat.add_div_right _ hB]
    · have h1 : xs.length - (B - 1) + B - 1 = B - 1 := by omega
      have h2 : xs.length + 1 + B - 1 = xs.length + B := by omega
      have h3 : (xs.length + B) / B = 1 := Nat.div_eq_of_lt_le (by omega) (by omega)
      rw [h1, h2, Nat.div_eq_of_lt (show B - 1 < B by omega), h3]

theorem chunkBatches_batch_le (B : Nat) (hB : 0 < B) (l : List α) :
    ∀ g ∈ chunkBatches B l, g.length ≤ B := by
  induction l using chunkBatches.induct B with
  | case1 => simp [chunkBatches]
  | case2 x xs ih =>
    rw [chunkBatches]
    intro g hg
    rcases List.mem_cons.mp hg with rfl | hmem
    · simp only [List.length_cons, List.length_take]
      omega
    · exact ih g hmem

theorem intercalate_single (s a : List α) : List.intercalate s [a] = a := by
  simp [List.intercalate]

theorem intercalate_cons_cons (s a b : List α) (t : List (List α)) :
    List.intercalate s (a :: b :: t) = a ++ s ++ List.intercalate s (b :: t) := by
  simp [List.intercalate, List.intersperse_cons_cons]

theorem run_batches_eq_intercalate (B : Nat) (l : List String) :
    BedrockKBCleanerV2.run_batches B l =
      List.intercalate [V2Event.interDelay]
        ((chunkBatches B l).map BedrockKBCleanerV2.batchTrace) := by
  induction l using chunkBatches.induct B with
  | case1 => simp [BedrockKBCleanerV2.run_batches, chunkBatches, List.intercalate]
  | case2 x xs ih =>
    rw [BedrockKBCleanerV2.run_batches, chunkBatches]
    cases hrest : xs.drop (B - 1) with
    | nil =>
      simp only [hrest, chunkBatches, List.isEmpty_nil, if_pos]
      rw [List.map_cons, List.map_nil, intercalate_single, List.append_nil]
    | cons y ys =>
      rw [hrest] at ih
      rw [List.map_cons, chunkBatches, List.map_cons, intercalate_cons_cons]
      rw [chunkBatches, List.map_cons] at ih
      rw [← ih]
      simp

/-! ### Claim C3 -/

/-- C3: when dry-run mode is enabled, a full run of
`delete_all_knowledge_bases` (of either cleaner) issues zero mutating API
calls - no create, update, or delete calls - for every possible enumeration
outcome, confirmation flag, prompt response, and batch size. -/
theorem c3_dry_run_no_mutating_calls (confirm : Bool) (resp : String)
    (lo1 : Option (List BedrockKBCleaner.KBInfo))
    (lo2 : Option (List BedrockKBCleanerV2.KBInfoV2)) (B : Nat) :
    (BedrockKBCleaner.delete_all_knowledge_bases true confirm resp lo1).2.filter
      ApiCall.isMutating = [] ∧
    (BedrockKBCleanerV2.delete_all_knowledge_bases true confirm resp lo2 B).2.filter
      ApiCall.isMutating = [] := by
  constructor
  · simp only [BedrockKBCleaner.delete_all_knowledge_bases]
    split_ifs with h1 h2
    · decide
    · decide
    · simp [BedrockKBCleaner.delete_knowledge_base, List.map_map, Function.comp_def,
        flatten_map_nil, ApiCall.isMutating]
  · simp only [BedrockKBCleanerV2.delete_all_knowledge_bases]
    split_ifs with h1 h2 h3
    · decide
    · decide
    · decide
    · simp [BedrockKBCleanerV2.delete_knowledge_base_with_timeout, List.map_map,
        Function.comp_def, flatten_map_nil, ApiCall.isMutating]

/-! ### Claim C4 -/

/-- C4: with dry-run off and the confirm flag not set, any confirmation
response other than the literal `DELETE` makes `delete_all_knowledge_bases`
(of either cleaner) return without a summary and without issuing any mutating
API call. -/
theorem c4_refusal_aborts_without_mutation (resp : String) (hresp : resp ≠ "DELETE")
    (lo1 : Option (List BedrockKBCleaner.KBInfo))
    (lo2 : Option (List BedrockKBCleanerV2.KBInfoV2)) (B : Nat) :
    ((BedrockKBCleaner.delete_all_knowledge_bases false false resp lo1).1 = none ∧
     (BedrockKBCleaner.delete_all_knowledge_bases false false resp lo1).2.filter
       ApiCall.isMutating = []) ∧
    ((BedrockKBCleanerV2.delete_all_knowledge_bases false false resp lo2 B).1 = none ∧
     (BedrockKBCleanerV2.delete_all_knowledge_bases false false resp lo2 B).2.filter
       ApiCall.isMutating = []) := by
  constructor
  · simp only [BedrockKBCleaner.delete_all_knowledge_bases]
    split_ifs with h1 h2
    · exact ⟨rfl, by decide⟩
    · exact ⟨rfl, by decide⟩
    · exact absurd ⟨by simp, by simp, hresp⟩ h2
  · simp only [BedrockKBCleanerV2.delete_all_knowledge_bases]
    split_ifs with h1 h2 h3
    · exact ⟨rfl, by decide⟩
    · exact ⟨rfl, by decide⟩
    · exact ⟨rfl, by decide⟩
    · exact absurd ⟨by simp, by simp, hresp⟩ h2

/-! ### Claim C5 -/

/-- C5: whenever a run of `delete_all_knowledge_bases` (of either cleaner)
reaches its deletion summary, the reported success count plus the reported
failure count equals the number of enumerated knowledge bases. -/
theorem c5_summary_counts_sum_to_total (dr c : Bool) (resp : String)
    (lo1 : Option (List BedrockKBCleaner.KBInfo))
    (dr2 c2 : Bool) (resp2 : String) (lo2 : Option (List BedrockKBCleanerV2.KBInfoV2))
    (B s1 f1 s2 f2 : Nat)
    (h1 : (BedrockKBCleaner.delete_all_knowledge_bases dr c resp lo1).1 = some (s1, f1))
    (h2 : (BedrockKBCleanerV2.delete_all_knowledge_bases dr2 c2 resp2 lo2 B).1 =
      some (s2, f2)) :
    s1 + f1 = (lo1.getD []).length ∧ s2 + f2 = (lo2.getD []).length := by
  constructor
  · simp only [BedrockKBCleaner.delete_all_knowledge_bases] at h1
    by_cases hA : (lo1.getD []).isEmpty = true
    · rw [if_pos hA] at h1
      exact absurd h1 (by simp)
    · rw [if_neg hA] at h1
      by_cases hB : ¬dr = true ∧ ¬c = true ∧ resp ≠ "DELETE"
      · rw [if_pos hB] at h1
        exact absurd h1 (by simp)
      · rw [if_neg hB] at h1
        have h1' := Option.some.inj h1
        injection h1' with hs hf
        rw [← hs, ← hf, countP_add_countP_not, List.length_map]
  · simp only [BedrockKBCleanerV2.delete_all_knowledge_bases] at h2
    by_cases hA : (lo2.getD []).isEmpty = true
    · rw [if_pos hA] at h2
      exact absurd h2 (by simp)
    · rw [if_neg hA] at h2
      by_cases hB : ¬dr2 = true ∧ ¬c2 = true ∧ resp2 ≠ "DELETE"
      · rw [if_pos hB] at h2
        exact absurd h2 (by simp)
      · rw [if_neg hB] at h2
        by_cases hC : B = 0
        · rw [if_pos hC] at h2
          exact absurd h2 (by simp)
        · rw [if_neg hC] at h2
          have h2' := Option.some.inj h2
          injection h2' with hs hf
          rw [← hs, ← hf, countP_add_countP_not, List.length_map, chunkBatches_flatten]

/-- Sample knowledge base used to instantiate `c5_summary_counts_sum_to_total`. -/
def c5kb1 : BedrockKBCleaner.KBInfo :=
  ⟨"kb-a", "alpha", [], fun _ => V1Outcome.success⟩

/-- Sample v2 knowledge base used to instantiate
`c5_summary_counts_sum_to_total`. -/
def c5kb2 : BedrockKBCleanerV2.KBInfoV2 :=
  ⟨"kb-b", "beta", [], fun _ => V2Outcome.success⟩

/-- Witness for C5: a concrete run of each cleaner over one knowledge base
reaches the summary with counts `(1, 0)`, and the theorem applies. -/
theorem c5_summary_counts_sum_to_total_witness :
    (BedrockKBCleaner.delete_all_knowledge_bases false true "" (some [c5kb1])).1 =
      some (1, 0) ∧
    (BedrockKBCleanerV2.delete_all_knowledge_bases false true "" (some [c5kb2]) 5).1 =
      some (1, 0) ∧
    (1 + 0 = ((some [c5kb1]).getD []).length ∧
     1 + 0 = ((some [c5kb2]).getD []).length) :=
  have hv2 : (BedrockKBCleanerV2.delete_all_knowledge_bases false true ""
      (some [c5kb2]) 5).1 = some (1, 0) := by
    simp only [BedrockKBCleanerV2.delete_all_knowledge_bases, Option.getD_some, chunkBatches, List.take_nil, List.drop_nil]
    decide
  ⟨by decide, hv2,
    c5_summary_counts_sum_to_total false true "" (some [c5kb1]) false true ""
      (some [c5kb2]) 5 1 0 1 0 (by decide) hv2⟩

/-! ### Claim C10 -/

/-- C10: the success-rate computation at the end of the v2 cleaner's
`delete_all_knowledge_bases` never divides by zero: whenever the summary is
reached, `success_count + failure_count ≥ 1`, because the function returns
early when zero knowledge bases are enumerated and every enumerated knowledge
base increments exactly one of the two counters. -/
theorem c10_success_rate_denominator_positive (dr c : Bool) (resp : String)
    (lo : Option (List BedrockKBCleanerV2.KBInfoV2)) (B s f : Nat)
    (h : (BedrockKBCleanerV2.delete_all_knowledge_bases dr c resp lo B).1 = some (s, f)) :
    1 ≤ s + f := by
  simp only [BedrockKBCleanerV2.delete_all_knowledge_bases] at h
  by_cases hA : (lo.getD []).isEmpty = true
  · rw [if_pos hA] at h
    exact absurd h (by simp)
  · rw [if_neg hA] at h
    by_cases hB : ¬dr = true ∧ ¬c = true ∧ resp ≠ "DELETE"
    · rw [if_pos hB] at h
      exact absurd h (by simp)
    · rw [if_neg hB] at h
      by_cases hC : B = 0
      · rw [if_pos hC] at h
        exact absurd h (by simp)
      · rw [if_neg hC] at h
        have h' := Option.some.inj h
        injection h' with hs hf
        rw [← hs, ← hf, countP_add_countP_not, List.length_map, chunkBatches_flatten]
        have hne : (lo.getD []) ≠ [] := by simpa using hA
        have := List.length_pos.mpr hne
        omega

/-- Sample v2 knowledge base used to instantiate
`c10_success_rate_denominator_positive`. -/
def c10kb : BedrockKBCleanerV2.KBInfoV2 :=
  ⟨"kb-c", "gamma", [], fun _ => V2Outcome.success⟩

/-- Witness for C10: a concrete v2 run over one knowledge base reaches the
summary with counts `(1, 0)`, and the theorem applies. -/
theorem c10_success_rate_denominator_positive_witness :
    (BedrockKBCleanerV2.delete_all_knowledge_bases true true "" (some [c10kb]) 5).1 =
      some (1, 0) ∧ 1 ≤ 1 + 0 :=
  have hv2 : (BedrockKBCleanerV2.delete_all_knowledge_bases true true ""
      (some [c10kb]) 5).1 = some (1, 0) := by
    simp only [BedrockKBCleanerV2.delete_all_knowledge_bases, Option.getD_some, chunkBatches, List.take_nil, List.drop_nil]
    decide
  ⟨hv2, c10_success_rate_denominator_positive true true "" (some [c10kb]) 5 1 0 hv2⟩

/-! ### Claim C6 -/

/-- C6: for every batch size `B > 0` and every list of enumerated knowledge
bases, the v2 batch loop processes the list in exactly `ceil(T/B)` groups of
at most `B` items each (together covering the whole list in order), and the
10-second inter-group delay appears only between consecutive groups - the
event trace is exactly the group traces interleaved with single `interDelay`
events, so no delay follows the final group. -/
theorem c6_batches_ceil_and_delays (B : Nat) (hB : 0 < B) (kbIds : List String) :
    (chunkBatches B kbIds).length = (kbIds.length + B - 1) / B ∧
    (∀ g ∈ chunkBatches B kbIds, g.length ≤ B) ∧
    (chunkBatches B kbIds).flatten = kbIds ∧
    BedrockKBCleanerV2.run_batches B kbIds =
      List.intercalate [V2Event.interDelay]
        ((chunkBatches B kbIds).map BedrockKBCleanerV2.batchTrace) :=
  ⟨chunkBatches_length B hB kbIds, chunkBatches_batch_le B hB kbIds,
    chunkBatches_flatten B kbIds, run_batches_eq_intercalate B kbIds⟩

/-- Witness for C6: with `B = 2` and three knowledge bases the loop forms
`ceil(3/2) = 2` groups covering the list, and the theorem applies. -/
theorem c6_batches_ceil_and_delays_witness :
    0 < 2 ∧
    (chunkBatches 2 ["kb-1", "kb-2", "kb-3"]).length =
      ((["kb-1", "kb-2", "kb-3"] : List String).length + 2 - 1) / 2 ∧
    (chunkBatches 2 ["kb-1", "kb-2", "kb-3"]).flatten = ["kb-1", "kb-2", "kb-3"] :=
  ⟨by decide, (c6_batches_ceil_and_delays 2 (by decide) ["kb-1", "kb-2", "kb-3"]).1,
    (c6_batches_ceil_and_delays 2 (by decide) ["kb-1", "kb-2", "kb-3"]).2.2.1⟩

/-! ### Claim C1 -/

theorem v1_delete_data_source_first_success (kbId dsId : String)
    (beh : Nat → V1Outcome) (polBeh : Nat → Bool × Bool) (m : Nat) (hm : 0 < m)
    (h : beh 0 = V1Outcome.success) :
    BedrockKBCleaner.delete_data_source kbId dsId beh polBeh m =
      (true, [ApiCall.deleteDataSource kbId dsId]) := by
  obtain ⟨t, rfl⟩ : ∃ t, m = t + 1 := ⟨m - 1, by omega⟩
  simp only [BedrockKBCleaner.delete_data_source, BedrockKBCleaner.delete_data_source_go,
    Nat.sub_self, h]

theorem v1_delete_knowledge_base_go_first_success (kbId : String)
    (beh : Nat → V1Outcome) (m : Nat) (hm : 0 < m) (h : beh 0 = V1Outcome.success) :
    BedrockKBCleaner.delete_knowledge_base_go kbId beh m m =
      (true, [ApiCall.deleteKnowledgeBase kbId]) := by
  obtain ⟨t, rfl⟩ : ∃ t, m = t + 1 := ⟨m - 1, by omega⟩
  simp only [BedrockKBCleaner.delete_knowledge_base_go, Nat.sub_self, h]

theorem v2_delete_data_source_first_success (kbId dsId : String)
    (beh : Nat → V2Outcome) (polBeh : Nat → Bool × Bool) (m : Nat) (hm : 0 < m)
    (h : beh 0 = V2Outcome.success) :
    BedrockKBCleanerV2.delete_data_source_with_timeout kbId dsId beh polBeh m =
      (true, [ApiCall.deleteDataSource kbId dsId]) := by
  obtain ⟨t, rfl⟩ : ∃ t, m = t + 1 := ⟨m - 1, by omega⟩
  simp only [BedrockKBCleanerV2.delete_data_source_with_timeout,
    BedrockKBCleanerV2.delete_data_source_with_timeout_go, Nat.sub_self, h]

theorem v2_delete_knowledge_base_go_first_success (kbId : String)
    (beh : Nat → V2Outcome) (m : Nat) (hm : 0 < m) (h : beh 0 = V2Outcome.success) :
    BedrockKBCleanerV2.delete_knowledge_base_with_timeout_go kbId beh m m =
      (true, [ApiCall.deleteKnowledgeBase kbId]) := by
  obtain ⟨t, rfl⟩ : ∃ t, m = t + 1 := ⟨m - 1, by omega⟩
  simp only [BedrockKBCleanerV2.delete_knowledge_base_with_timeout_go, Nat.sub_self, h]

/-- Data source whose first deletion attempt fails with a vector-store
`ClientError` and whose second attempt succeeds. -/
def c1ds : BedrockKBCleaner.DSInfo :=
  ⟨"ds-1", "s3-data",
    fun i => if i = 0 then V1Outcome.clientError "vector store error"
             else V1Outcome.success,
    fun _ => (true, true)⟩

/-- Knowledge base enumerating exactly one data source, namely `c1ds`. -/
def c1kb : BedrockKBCleaner.KBInfo :=
  ⟨"kb-1", "demo-kb", [c1ds], fun _ => V1Outcome.success⟩

/-- Counterexample to C1 as stated: `c1kb` enumerates `N = 1` data source,
yet deleting it issues `2` data-source-deletion calls, because the
vector-store retry at `delete_bedrock_kbs.py` lines 117-121 re-issues the
`delete_data_source` call after the policy update.  So "exactly N
data-source-deletion calls" fails. -/
theorem c1_counterexample :
    c1kb.dataSources.length = 1 ∧
    (BedrockKBCleaner.delete_knowledge_base false c1kb 3).2.countP
      ApiCall.isDSDelete = 2 := by
  decide

/-- C1 (amended): when dry-run is off and every deletion call succeeds on its
first attempt, deleting a knowledge base whose enumeration yields `N` data
sources issues exactly `N` data-source-deletion calls - one per enumerated
data source, in order - all of which occur before the single
knowledge-base-deletion call; this holds for both cleaners.  (The original
claim fails when a vector-store error triggers the retry path, which re-issues
deletion calls: see the counterexample.) -/
theorem c1_amended_n_deletes_before_kb_delete
    (kb : BedrockKBCleaner.KBInfo) (kb2 : BedrockKBCleanerV2.KBInfoV2)
    (m m2 : Nat) (hm : 0 < m) (hm2 : 0 < m2)
    (hds : ∀ ds ∈ kb.dataSources, ds.beh 0 = V1Outcome.success)
    (hkb : kb.kbBeh 0 = V1Outcome.success)
    (hds2 : ∀ ds ∈ kb2.dataSources, ds.beh 0 = V2Outcome.success)
    (hkb2 : kb2.kbBeh 0 = V2Outcome.success) :
    BedrockKBCleaner.delete_knowledge_base false kb m =
      (true, ApiCall.listDataSources kb.kbId ::
        kb.dataSources.map (fun ds => ApiCall.deleteDataSource kb.kbId ds.dsId) ++
        [ApiCall.deleteKnowledgeBase kb.kbId]) ∧
    BedrockKBCleanerV2.delete_knowledge_base_with_timeout false kb2 m2 =
      (true, ApiCall.listDataSources kb2.kbId ::
        kb2.dataSources.map (fun ds => ApiCall.deleteDataSource kb2.kbId ds.dsId) ++
        [ApiCall.deleteKnowledgeBase kb2.kbId]) := by
  constructor
  · have hmap : kb.dataSources.map
        (fun ds => (BedrockKBCleaner.delete_data_source kb.kbId ds.dsId ds.beh ds.polBeh 3).2) =
        kb.dataSources.map (fun ds => [ApiCall.deleteDataSource kb.kbId ds.dsId]) :=
      List.map_congr_left fun ds hmem => by
        rw [v1_delete_data_source_first_success _ _ _ _ 3 (by omega) (hds ds hmem)]
    simp only [BedrockKBCleaner.delete_knowledge_base, Bool.false_eq_true, if_false,
      hmap, flatten_map_singleton,
      v1_delete_knowledge_base_go_first_success kb.kbId kb.kbBeh m hm hkb]
  · have hmap : kb2.dataSources.map
        (fun ds => (BedrockKBCleanerV2.delete_data_source_with_timeout
          kb2.kbId ds.dsId ds.beh ds.polBeh 3).2) =
        kb2.dataSources.map (fun ds => [ApiCall.deleteDataSource kb2.kbId ds.dsId]) :=
      List.map_congr_left fun ds hmem => by
        rw [v2_delete_data_source_first_success _ _ _ _ 3 (by omega) (hds2 ds hmem)]
    simp only [BedrockKBCleanerV2.delete_knowledge_base_with_timeout, Bool.false_eq_true,
      if_false, hmap, flatten_map_singleton,
      v2_delete_knowledge_base_go_first_success kb2.kbId kb2.kbBeh m2 hm2 hkb2]

/-- All-success data source for the C1 witness. -/
def c1okds : BedrockKBCleaner.DSInfo :=
  ⟨"ds-1", "s3-data", fun _ => V1Outcome.success, fun _ => (true, true)⟩

/-- All-success knowledge base for the C1 witness. -/
def c1okkb : BedrockKBCleaner.KBInfo :=
  ⟨"kb-1", "demo-kb", [c1okds], fun _ => V1Outcome.success⟩

/-- All-success v2 data source for the C1 witness. -/
def c1okds2 : BedrockKBCleanerV2.DSInfoV2 :=
  ⟨"ds-2", "s3-data", fun _ => V2Outcome.success, fun _ => (true, true)⟩

/-- All-success v2 knowledge base for the C1 witness. -/
def c1okkb2 : BedrockKBCleanerV2.KBInfoV2 :=
  ⟨"kb-2", "demo-kb", [c1okds2], fun _ => V2Outcome.success⟩

/-- Witness for the amended C1 at concrete all-success knowledge bases. -/
theorem c1_amended_n_deletes_before_kb_delete_witness :
    BedrockKBCleaner.delete_knowledge_base false c1okkb 3 =
      (true, ApiCall.listDataSources c1okkb.kbId ::
        c1okkb.dataSources.map (fun ds => ApiCall.deleteDataSource c1okkb.kbId ds.dsId) ++
        [ApiCall.deleteKnowledgeBase c1okkb.kbId]) ∧
    BedrockKBCleanerV2.delete_knowledge_base_with_timeout false c1okkb2 3 =
      (true, ApiCall.listDataSources c1okkb2.kbId ::
        c1okkb2.dataSources.map (fun ds => ApiCall.deleteDataSource c1okkb2.kbId ds.dsId) ++
        [ApiCall.deleteKnowledgeBase c1okkb2.kbId]) :=
  c1_amended_n_deletes_before_kb_delete c1okkb c1okkb2 3 3 (by decide) (by decide)
    (by decide) (by decide) (by decide) (by decide)

/-! ### Claim C2 -/

/-- The calls of one vector-store-retry round: the failing
`delete_data_source` attempt, followed by the policy update's
`get_data_source` and `update_data_source` (with `dataDeletionPolicy =
'RETAIN'`); the retry itself is the next round's leading delete call. -/
def vsRetryBlock (kbId dsId : String) : List ApiCall :=
  [ApiCall.deleteDataSource kbId dsId, ApiCall.getDataSource kbId dsId,
   ApiCall.updateDataSource kbId dsId]

theorem v1_go_step_success (kbId dsId : String) (beh : Nat → V1Outcome)
    (polBeh : Nat → Bool × Bool) (m r : Nat)
    (h : beh (m - (r + 1)) = V1Outcome.success) :
    BedrockKBCleaner.delete_data_source_go kbId dsId beh polBeh m (r + 1) =
      (true, [ApiCall.deleteDataSource kbId dsId]) := by
  simp only [BedrockKBCleaner.delete_data_source_go, h]

theorem v1_go_step_clientError (kbId dsId : String) (beh : Nat → V1Outcome)
    (polBeh : Nat → Bool × Bool) (m r : Nat) (msg : String)
    (h : beh (m - (r + 1)) = V1Outcome.clientError msg) :
    BedrockKBCleaner.delete_data_source_go kbId dsId beh polBeh m (r + 1) =
      if hasVectorStore msg = true ∧ m - (r + 1) < m - 1 then
        ((BedrockKBCleaner.delete_data_source_go kbId dsId beh polBeh m r).1,
          ApiCall.deleteDataSource kbId dsId ::
            (BedrockKBCleaner.update_data_source_deletion_policy kbId dsId
              (polBeh (m - (r + 1))).1 (polBeh (m - (r + 1))).2).2 ++
            (BedrockKBCleaner.delete_data_source_go kbId dsId beh polBeh m r).2)
      else (false, [ApiCall.deleteDataSource kbId dsId]) := by
  simp only [BedrockKBCleaner.delete_data_source_go, h]

theorem v2_go_step_success (kbId dsId : String) (beh : Nat → V2Outcome)
    (polBeh : Nat → Bool × Bool) (m r : Nat)
    (h : beh (m - (r + 1)) = V2Outcome.success) :
    BedrockKBCleanerV2.delete_data_source_with_timeout_go kbId dsId beh polBeh m (r + 1) =
      (true, [ApiCall.deleteDataSource kbId dsId]) := by
  simp only [BedrockKBCleanerV2.delete_data_source_with_timeout_go, h]

theorem v2_go_step_clientError (kbId dsId : String) (beh : Nat → V2Outcome)
    (polBeh : Nat → Bool × Bool) (m r : Nat) (msg : String)
    (h : beh (m - (r + 1)) = V2Outcome.clientError msg) :
    BedrockKBCleanerV2.delete_data_source_with_timeout_go kbId dsId beh polBeh m (r + 1) =
      if hasVectorStore msg = true ∧ m - (r + 1) < m - 1 then
        ((BedrockKBCleanerV2.delete_data_source_with_timeout_go kbId dsId beh polBeh m r).1,
          ApiCall.deleteDataSource kbId dsId ::
            (BedrockKBCleanerV2.update_data_source_deletion_policy_with_timeout kbId dsId
              (polBeh (m - (r + 1))).1 (polBeh (m - (r + 1))).2).2 ++
            (BedrockKBCleanerV2.delete_data_source_with_timeout_go kbId dsId beh polBeh m r).2)
      else (false, [ApiCall.deleteDataSource kbId dsId]) := by
  simp only [BedrockKBCleanerV2.delete_data_source_with_timeout_go, h]

theorem v1_go_all_vs (kbId dsId msg : String) (hmsg : hasVectorStore msg = true)
    (m : Nat) : ∀ r, 1 ≤ r → r ≤ m →
    BedrockKBCleaner.delete_data_source_go kbId dsId
      (fun _ => V1Outcome.clientError msg) (fun _ => (true, true)) m r =
      (false, (List.replicate (r - 1) (vsRetryBlock kbId dsId)).flatten ++
        [ApiCall.deleteDataSource kbId dsId]) := by
  intro r
  induction r with
  | zero => intro h1 _; omega
  | succ t ih =>
    intro _ h2
    rw [v1_go_step_clientError kbId dsId _ _ m t msg rfl]
    rcases t with _ | s
    · rw [if_neg fun hc => absurd hc.2 (by omega)]
      simp
    · rw [if_pos ⟨hmsg, by omega⟩, ih (by omega) (by omega)]
      simp [BedrockKBCleaner.update_data_source_deletion_policy, vsRetryBlock,
        List.replicate_succ]

theorem v1_go_prefix_vs (kbId dsId msg : String) (hmsg : hasVectorStore msg = true)
    (m : Nat) :
    ∀ k r, 1 ≤ r → r ≤ m → k ≤ r - 1 → ∀ beh : Nat → V1Outcome,
      (∀ j, j < k → beh (m - r + j) = V1Outcome.clientError msg) →
      beh (m - r + k) = V1Outcome.success →
      BedrockKBCleaner.delete_data_source_go kbId dsId beh (fun _ => (true, true)) m r =
        (true, (List.replicate k (vsRetryBlock kbId dsId)).flatten ++
          [ApiCall.deleteDataSource kbId dsId]) := by
  intro k
  induction k with
  | zero =>
    intro r h1 h2 _ beh _ hsucc
    obtain ⟨t, rfl⟩ : ∃ t, r = t + 1 := ⟨r - 1, by omega⟩
    rw [v1_go_step_success kbId dsId beh _ m t (by simpa using hsucc)]
    simp
  | succ s ih =>
    intro r h1 h2 hk beh herr hsucc
    obtain ⟨t, rfl⟩ : ∃ t, r = t + 1 := ⟨r - 1, by omega⟩
    rw [v1_go_step_clientError kbId dsId beh _ m t msg (by simpa using herr 0 (by omega))]
    rw [if_pos ⟨hmsg, by omega⟩]
    rw [ih t (by omega) (by omega) (by omega) beh
      (fun j hj => by
        rw [show m - t + j = m - (t + 1) + (j + 1) from by omega]
        exact herr (j + 1) (by omega))
      (by
        rw [show m - t + s = m - (t + 1) + (s + 1) from by omega]
        exact hsucc)]
    simp [BedrockKBCleaner.update_data_source_deletion_policy, vsRetryBlock,
      List.replicate_succ]

theorem v2_go_all_vs (kbId dsId msg : String) (hmsg : hasVectorStore msg = true)
    (m : Nat) : ∀ r, 1 ≤ r → r ≤ m →
    BedrockKBCleanerV2.delete_data_source_with_timeout_go kbId dsId
      (fun _ => V2Outcome.clientError msg) (fun _ => (true, true)) m r =
      (false, (List.replicate (r - 1) (vsRetryBlock kbId dsId)).flatten ++
        [ApiCall.deleteDataSource kbId dsId]) := by
  intro r
  induction r with
  | zero => intro h1 _; omega
  | succ t ih =>
    intro _ h2
    rw [v2_go_step_clientError kbId dsId _ _ m t msg rfl]
    rcases t with _ | s
    · rw [if_neg fun hc => absurd hc.2 (by omega)]
      simp
    · rw [if_pos ⟨hmsg, by omega⟩, ih (by omega) (by omega)]
      simp [BedrockKBCleanerV2.update_data_source_deletion_policy_with_timeout,
        vsRetryBlock, List.replicate_succ]

theorem v2_go_prefix_vs (kbId dsId msg : String) (hmsg : hasVectorStore msg = true)
    (m : Nat) :
    ∀ k r, 1 ≤ r → r ≤ m → k ≤ r - 1 → ∀ beh : Nat → V2Outcome,
      (∀ j, j < k → beh (m - r + j) = V2Outcome.clientError msg) →
      beh (m - r + k) = V2Outcome.success →
      BedrockKBCleanerV2.delete_data_source_with_timeout_go kbId dsId beh
        (fun _ => (true, true)) m r =
        (true, (List.replicate k (vsRetryBlock kbId dsId)).flatten ++
          [ApiCall.deleteDataSource kbId dsId]) := by
  intro k
  induction k with
  | zero =>
    intro r h1 h2 _ beh _ hsucc
    obtain ⟨t, rfl⟩ : ∃ t, r = t + 1 := ⟨r - 1, by omega⟩
    rw [v2_go_step_success kbId dsId beh _ m t (by simpa using hsucc)]
    simp
  | succ s ih =>
    intro r h1 h2 hk beh herr hsucc
    obtain ⟨t, rfl⟩ : ∃ t, r = t + 1 := ⟨r - 1, by omega⟩
    rw [v2_go_step_clientError kbId dsId beh _ m t msg (by simpa using herr 0 (by omega))]
    rw [if_pos ⟨hmsg, by omega⟩]
    rw [ih t (by omega) (by omega) (by omega) beh
      (fun j hj => by
        rw [show m - t + j = m - (t + 1) + (j + 1) from by omega]
        exact herr (j + 1) (by omega))
      (by
        rw [show m - t + s = m - (t + 1) + (s + 1) from by omega]
        exact hsucc)]
    simp [BedrockKBCleanerV2.update_data_source_deletion_policy_with_timeout,
      vsRetryBlock, List.replicate_succ]

/-- C2: in both cleaners, a data-source deletion attempt failing with an
error whose message contains `vector store` triggers exactly one
deletion-policy-update call (the `get_data_source`/`update_data_source` pair
setting the policy to RETAIN) followed by exactly one retry of the deletion
call, and this update-then-retry round occurs at most `max_retries - 1` times
before the deletion is reported as failed: with every attempt failing, the
trace is exactly `max_retries - 1` rounds followed by the final failing
attempt and the result `False`; with `k ≤ max_retries - 1` vector-store
failures followed by a success, it is exactly `k` rounds followed by the
succeeding retry.  (The mock errs only the delete call itself, so the policy
update's internal `get_data_source` succeeds.) -/
theorem c2_vector_store_update_then_retry (kbId dsId msg : String) (m k : Nat)
    (hm : 0 < m) (hk : k ≤ m - 1) (hmsg : hasVectorStore msg = true) :
    (BedrockKBCleaner.delete_data_source kbId dsId
        (fun _ => V1Outcome.clientError msg) (fun _ => (true, true)) m =
      (false, (List.replicate (m - 1) (vsRetryBlock kbId dsId)).flatten ++
        [ApiCall.deleteDataSource kbId dsId])) ∧
    (BedrockKBCleaner.delete_data_source kbId dsId
        (fun i => if i < k then V1Outcome.clientError msg else V1Outcome.success)
        (fun _ => (true, true)) m =
      (true, (List.replicate k (vsRetryBlock kbId dsId)).flatten ++
        [ApiCall.deleteDataSource kbId dsId])) ∧
    (BedrockKBCleanerV2.delete_data_source_with_timeout kbId dsId
        (fun _ => V2Outcome.clientError msg) (fun _ => (true, true)) m =
      (false, (List.replicate (m - 1) (vsRetryBlock kbId dsId)).flatten ++
        [ApiCall.deleteDataSource kbId dsId])) ∧
    (BedrockKBCleanerV2.delete_data_source_with_timeout kbId dsId
        (fun i => if i < k then V2Outcome.clientError msg else V2Outcome.success)
        (fun _ => (true, true)) m =
      (true, (List.replicate k (vsRetryBlock kbId dsId)).flatten ++
        [ApiCall.deleteDataSource kbId dsId])) := by
  refine ⟨v1_go_all_vs kbId dsId msg hmsg m m hm (le_refl m), ?_,
    v2_go_all_vs kbId dsId msg hmsg m m hm (le_refl m), ?_⟩
  · refine v1_go_prefix_vs kbId dsId msg hmsg m k m hm (le_refl m) hk _ ?_ ?_
    · intro j hj
      simp [Nat.sub_self, hj]
    · simp [Nat.sub_self]
  · refine v2_go_prefix_vs kbId dsId msg hmsg m k m hm (le_refl m) hk _ ?_ ?_
    · intro j hj
      simp [Nat.sub_self, hj]
    · simp [Nat.sub_self]

/-- Witness for C2 at `max_retries = 3`, one vector-store failure before
success, and a concrete vector-store error message. -/
theorem c2_vector_store_update_then_retry_witness :
    (0 < 3 ∧ 1 ≤ 3 - 1 ∧ hasVectorStore "Cannot delete: vector store error" = true) ∧
    BedrockKBCleaner.delete_data_source "kb-1" "ds-1"
        (fun _ => V1Outcome.clientError "Cannot delete: vector store error")
        (fun _ => (true, true)) 3 =
      (false, (List.replicate (3 - 1) (vsRetryBlock "kb-1" "ds-1")).flatten ++
        [ApiCall.deleteDataSource "kb-1" "ds-1"]) ∧
    BedrockKBCleaner.delete_data_source "kb-1" "ds-1"
        (fun i => if i < 1 then V1Outcome.clientError "Cannot delete: vector store error"
                  else V1Outcome.success)
        (fun _ => (true, true)) 3 =
      (true, (List.replicate 1 (vsRetryBlock "kb-1" "ds-1")).flatten ++
        [ApiCall.deleteDataSource "kb-1" "ds-1"]) :=
  ⟨⟨by decide, by decide, by decide⟩,
    (c2_vector_store_update_then_retry "kb-1" "ds-1" "Cannot delete: vector store error"
      3 1 (by decide) (by decide) (by decide)).1,
    (c2_vector_store_update_then_retry "kb-1" "ds-1" "Cannot delete: vector store error"
      3 1 (by decide) (by decide) (by decide)).2.1⟩

/-! ### Claim C7 -/

theorem kb_active_go_const_creating :
    ∀ fuel i, wait_for_kb_active_go (fun _ => "CREATING") i fuel = none := by
  intro fuel
  induction fuel with
  | zero => intro i; rfl
  | succ f ih =>
    intro i
    simp only [wait_for_kb_active_go]
    rw [if_neg (by decide), if_neg (by decide)]
    exact ih (i + 1)

theorem action_group_go_const_creating :
    ∀ fuel i, action_group_wait_go (fun _ => "CREATING") i fuel = none := by
  intro fuel
  induction fuel with
  | zero => intro i; rfl
  | succ f ih =>
    intro i
    simp only [action_group_wait_go]
    rw [if_neg (by decide)]
    exact ih (i + 1)

/-- Counterexample to C7 as stated: the polling loops of `wait_for_kb_active`
(`kb_test.py` lines 228-239) and of `enable_code_interpreter` (lines 345-358)
have no retry counter and no wall-clock timeout, so on a resource whose
status stays `CREATING` forever they never exit: for every finite number of
polls the loop is still running.  This refutes "no polling loop can run
forever on a status that never reaches a target value". -/
theorem c7_counterexample :
    kbActivePollsForever (fun _ => "CREATING") ∧
    actionGroupPollsForever (fun _ => "CREATING") :=
  ⟨fun fuel => kb_active_go_const_creating fuel 0,
   fun fuel => action_group_go_const_creating fuel 0⟩

theorem agent_status_go_polls_le (status : Nat → String) (expected : String) :
    ∀ fuel i, (wait_for_agent_status_go status expected i fuel).2 ≤ fuel := by
  intro fuel
  induction fuel with
  | zero => intro i; simp [wait_for_agent_status_go]
  | succ f ih =>
    intro i
    simp only [wait_for_agent_status_go]
    split
    · simp
    · split
      · simp
      · have := ih (i + 1)
        simp only []
        omega

/-- C7 (amended): the polling loops that carry an explicit bound do
terminate - `wait_for_agent_status` (`kb_test.py` lines 645-665) issues at
most `max_retries` status polls on every status stream, stopping early at the
expected or a terminal status - but `wait_for_kb_active` and the action-group
wait loop in `enable_code_interpreter` have no counter or timeout and poll
forever on a status that never reaches a target or terminal value (see the
counterexample). -/
theorem c7_amended_bounded_poller_stops (status : Nat → String) (expected : String)
    (m : Nat) : (wait_for_agent_status status expected m).2 ≤ m :=
  agent_status_go_polls_le status expected m 0

/-! ### Claim C8 -/

/-- Counterexample to C8 as stated: with valid credentials but an
authentication/permission `ClientError` surfacing on the `list_knowledge_bases`
call (`listOutcome = none`), the v1 cleaner does not exit fatally: the error
is caught at `delete_bedrock_kbs.py` lines 55-57 and turned into an empty
enumeration, `delete_all_knowledge_bases` returns normally having issued only
the list call, and the process exits with status 0, not 1. -/
theorem c8_counterexample :
    BedrockKBCleaner.main_exit V1Startup.ok RunEvent.completes = 0 ∧
    BedrockKBCleaner.delete_all_knowledge_bases false false "DELETE" none =
      (none, [ApiCall.listKnowledgeBases]) := by
  decide

/-- C8 (amended): missing credentials at startup make both cleaners print a
diagnostic and exit immediately with status 1; in v2 a `ClientError` on the
startup test call (bad region/permissions) also exits fatally with status 1
before any per-resource work (the only call issued at startup is the
read-only test list call); but in v1 an authentication/permission error that
surfaces on the list call is caught, reported, and the run completes with
exit status 0 (see the counterexample). -/
theorem c8_amended_fatal_startup (msg : String) (ev ev2 : RunEvent) :
    BedrockKBCleaner.main_exit V1Startup.noCredentials ev = 1 ∧
    (BedrockKBCleanerV2.init V2Startup.noCredentials).1 = some 1 ∧
    (BedrockKBCleanerV2.init (V2Startup.testCallClientError msg)).1 = some 1 ∧
    (BedrockKBCleanerV2.init V2Startup.noCredentials).2.filter ApiCall.isMutating = [] ∧
    (BedrockKBCleanerV2.init (V2Startup.testCallClientError msg)).2.filter
      ApiCall.isMutating = [] ∧
    BedrockKBCleanerV2.main_exit V2Startup.noCredentials ev2 = 1 ∧
    BedrockKBCleanerV2.main_exit (V2Startup.testCallClientError msg) ev2 = 1 ∧
    BedrockKBCleaner.main_exit V1Startup.ok RunEvent.completes = 0 :=
  ⟨rfl, rfl, rfl, rfl, rfl, rfl, rfl, rfl⟩

/-! ### Claim C9 -/

/-- Counterexample to C9 as stated: the v1 `main` (`delete_bedrock_kbs.py`
lines 226-252) has no `KeyboardInterrupt` handler, so a user interruption
propagates out of the script and CPython terminates the process on the
original `SIGINT`; the observed exit status is 130, not the claimed 1. -/
theorem c9_counterexample :
    BedrockKBCleaner.main_exit V1Startup.ok RunEvent.interrupted = 130 ∧
    BedrockKBCleaner.main_exit V1Startup.ok RunEvent.interrupted ≠ 1 := by
  decide

/-- C9 (amended): both cleaners exit with status 0 on completion; the v2
cleaner exits with status 1 on a fatal startup error, an unexpected error, or
a user interruption (its `main` maps both exceptions to `sys.exit(1)`); the
v1 cleaner exits with status 1 on a fatal startup error or an uncaught
unexpected error, but a user interruption terminates it with the SIGINT
status 130, because its `main` has no handler. -/
theorem c9_amended_exit_codes (ev ev2 : RunEvent) (msg : String) :
    BedrockKBCleaner.main_exit V1Startup.ok RunEvent.completes = 0 ∧
    BedrockKBCleaner.main_exit V1Startup.noCredentials ev = 1 ∧
    BedrockKBCleaner.main_exit V1Startup.ok RunEvent.unexpectedError = 1 ∧
    BedrockKBCleaner.main_exit V1Startup.ok RunEvent.interrupted = 130 ∧
    BedrockKBCleanerV2.main_exit V2Startup.ok RunEvent.completes = 0 ∧
    BedrockKBCleanerV2.main_exit V2Startup.noCredentials ev2 = 1 ∧
    BedrockKBCleanerV2.main_exit (V2Startup.testCallClientError msg) ev2 = 1 ∧
    BedrockKBCleanerV2.main_exit V2Startup.ok RunEvent.interrupted = 1 ∧
    BedrockKBCleanerV2.main_exit V2Startup.ok RunEvent.unexpectedError = 1 :=
  ⟨rfl, rfl, rfl, rfl, rfl, rfl, rfl, rfl, rfl⟩

/-- Sample knowledge base used to instantiate
`c4_refusal_aborts_without_mutation`. -/
def c4kb1 : BedrockKBCleaner.KBInfo :=
  ⟨"kb-d", "delta", [], fun _ => V1Outcome.success⟩

/-- Sample v2 knowledge base used to instantiate
`c4_refusal_aborts_without_mutation`. -/
def c4kb2 : BedrockKBCleanerV2.KBInfoV2 :=
  ⟨"kb-e", "epsilon", [], fun _ => V2Outcome.success⟩

/-- Witness for C4: answering the prompt with `no` over a nonempty
enumeration aborts both cleaners with no mutating call. -/
theorem c4_refusal_aborts_without_mutation_witness :
    ((BedrockKBCleaner.delete_all_knowledge_bases false false "no" (some [c4kb1])).1 =
       none ∧
     (BedrockKBCleaner.delete_all_knowledge_bases false false "no" (some [c4kb1])).2.filter
       ApiCall.isMutating = []) ∧
    ((BedrockKBCleanerV2.delete_all_knowledge_bases false false "no" (some [c4kb2]) 5).1 =
       none ∧
     (BedrockKBCleanerV2.delete_all_knowledge_bases false false "no"
       (some [c4kb2]) 5).2.filter ApiCall.isMutating = []) :=
  c4_refusal_aborts_without_mutation "no" (by decide) (some [c4kb1]) (some [c4kb2]) 5
